import Mathlib

/-!
Shallow embedding of the authentication / car-listing / payment-method core of
the `opabackend` car-rental API (Python, FastAPI + SQLAlchemy), together with
theorems settling the specification claims about it.

Conventions of the embedding:
* Time is measured in whole seconds (`Nat`); a Python `timedelta` becomes the
  number of seconds it spans.
* Database tables become Lean lists of records; SQLAlchemy `query(...).first()`
  becomes `List.find?`, `.all()`-then-mutate becomes a `List.map` over the
  matching rows, and mutation of a single fetched ORM row becomes an update of
  the first matching list entry.
* Python exceptions are made explicit: a `try` body returns `Except`, and the
  `except` clauses of the source are translated as matches on the error value.
* External collaborators (`jose` JWT, `bcrypt`, Python `json`/`str`/`int`) are
  modelled as explicit Lean functions whose behaviour follows the library
  contracts the source relies on; each such model documents itself.
* `Float` columns (rates, coordinates) are carried opaquely: the source never
  computes with them, so they are modelled as `Int` pass-through values.
-/

namespace OpaBackend

/-- A FastAPI `HTTPException`: a status code plus a detail string. -/
structure HttpErr where
  status : Nat
  detail : String
  deriving Repr, DecidableEq

/-! ## Model of Python `str`/`int` on nonnegative decimal ids

`auth.py` stringifies database ids with `str(host.id)` when issuing tokens and
parses them back with `int(host_id_str)` in the guards.  We model the pair for
nonnegative integers: `py_str_nat` is ordinary decimal printing (what `str`
does on a nonnegative `int`), and `py_int` accepts exactly the nonempty
all-digit strings (Python's `int` additionally tolerates signs, surrounding
whitespace and underscores, none of which ever occur in a stringified id). -/

/-- Little-endian decimal digits of `n` (least significant first); `fuel`
bounds the recursion depth and is always supplied large enough. -/
def natDigitsRevF : Nat → Nat → List Char
  | 0, _ => []
  | fuel + 1, n =>
    if n < 10 then [Nat.digitChar n]
    else Nat.digitChar (n % 10) :: natDigitsRevF fuel (n / 10)

/-- Little-endian decimal digits of `n` (least significant first). -/
def natDigitsRev (n : Nat) : List Char :=
  natDigitsRevF (n + 1) n

/-- Model of Python `str` on a nonnegative integer: decimal notation. -/
def py_str_nat (n : Nat) : String :=
  String.mk (natDigitsRev n).reverse

/-- Model of Python `int(s)` for the strings relevant here: parses a nonempty
all-digit string as a nonnegative integer and rejects everything else. -/
def py_int (s : String) : Option Nat :=
  if s.toList ≠ [] ∧ s.toList.all Char.isDigit then
    some (s.toList.foldl (fun acc c => acc * 10 + (c.toNat - 48)) 0)
  else none

/-! ## Token Service (`app/auth.py`)

A JWT is modelled by its decoded claim set together with its integrity status:
`signed p` is a token correctly signed with the server's `SECRET_KEY`,
`tampered p` is structurally valid but fails signature verification, and
`garbage` is structurally broken.  This is the information `jose.jwt.decode`
acts on. -/

/-- The claim set of a token: `sub` and `role` are optional string claims
(`payload.get` returns `None` when absent), `exp` is the expiry time. -/
structure JwtPayload where
  sub : Option String
  role : Option String
  exp : Nat
  deriving Repr, DecidableEq

/-- A JWT as seen by the verifier. -/
inductive Jwt where
  | signed (payload : JwtPayload)
  | tampered (payload : JwtPayload)
  | garbage
  deriving Repr, DecidableEq

/-- Errors raised by the external `jose` library's `jwt.decode`, with the
message text each carries (used by the guards' `"expired" in str(e)` test). -/
inductive JWTError where
  | expiredSignature
  | invalidSignature
  | malformed
  deriving Repr, DecidableEq

/-- The exception message of each `jose` error. -/
def jwtErrorMsg : JWTError → String
  | .expiredSignature => "Signature has expired."
  | .invalidSignature => "Signature verification failed."
  | .malformed => "Not enough segments"

/-- `ACCESS_TOKEN_EXPIRE_MINUTES = 30` (`auth.py` line 16). -/
def ACCESS_TOKEN_EXPIRE_MINUTES : Nat := 30

/-- The `data` dict passed to `create_access_token`. -/
structure TokenData where
  sub : Option String
  role : Option String
  deriving Repr, DecidableEq

/-- `create_access_token(data, expires_delta=None)` (`auth.py` lines 38-47).
`expires_delta` is an optional duration in seconds.  Note the Python guard is
`if expires_delta:`, which is False both when the argument is omitted (`None`)
and when it is a zero `timedelta`; in both cases the 15-minute fallback is
used. -/
def create_access_token (data : TokenData) (expires_delta : Option Nat)
    (now : Nat) : Jwt :=
  let expire :=
    match expires_delta with
    | some d => if d ≠ 0 then now + d else now + 15 * 60
    | none => now + 15 * 60
  .signed { sub := data.sub, role := data.role, exp := expire }

/-- Model of the external `jose` library's `jwt.decode(token, SECRET_KEY,
algorithms=[ALGORITHM])`, per the Token Service contract: a structurally broken
token or a bad signature raises a `JWTError`; a correctly signed token whose
expiry has been reached (current time ≥ `exp`) raises
`ExpiredSignatureError`; otherwise the claim set is returned. -/
def jwt_decode (tok : Jwt) (now : Nat) : Except JWTError JwtPayload :=
  match tok with
  | .garbage => .error .malformed
  | .tampered _ => .error .invalidSignature
  | .signed p => if p.exp ≤ now then .error .expiredSignature else .ok p

/-- `exp` claim of a token as issued (`.signed`); used to state expiry facts. -/
def Jwt.expOf : Jwt → Option Nat
  | .signed p => some p.exp
  | .tampered p => some p.exp
  | .garbage => none

/-! ## Auth Guards (`app/auth.py`, `get_current_host` / `get_current_client`)

The Python guards wrap the whole decode-and-check sequence in
`try: ... except JWTError as e: ... except Exception as e: ...`.  Any
`HTTPException` raised inside the `try` body (including the 403 raised for a
wrong role) is an `Exception`, so it is caught by the second handler and
re-raised as a 401 whose detail embeds `str(e)`; Starlette's
`HTTPException.__str__` is `f"{status_code}: {detail}"`. -/

/-- What the `try` body of a guard can raise: a `jose` error from `jwt.decode`
or an `HTTPException` it constructs itself. -/
inductive TryExc where
  | jwtErr (e : JWTError)
  | httpExc (code : Nat) (detail : String)
  deriving Repr, DecidableEq

/-- Model of Python `str.lower()` on a single character (the exception
messages involved are plain ASCII). -/
def pyLowerChar (c : Char) : Char :=
  if 'A' ≤ c ∧ c ≤ 'Z' then Char.ofNat (c.toNat + 32) else c

/-- Model of Python `str.lower()` (ASCII). -/
def pyLower (s : String) : String :=
  String.mk (s.toList.map pyLowerChar)

/-- Substring test, modelling Python's `needle in haystack`. -/
def strContainsSub (hay needle : String) : Bool :=
  hay.toList.tails.any (fun t => needle.toList.isPrefixOf t)

/-- The detail computed in the guards' `except JWTError` handler:
`"Token has expired"` when `str(e).lower()` contains `"expired"` or `"exp"`,
otherwise `"Invalid token: " + str(e)`. -/
def jwtExceptDetail (e : JWTError) : String :=
  let msg := jwtErrorMsg e
  if strContainsSub (pyLower msg) "expired" || strContainsSub (pyLower msg) "exp" then
    "Token has expired"
  else
    "Invalid token: " ++ msg

/-- `str(e)` for a FastAPI/Starlette `HTTPException`. -/
def httpExcStr (code : Nat) (detail : String) : String :=
  py_str_nat code ++ ": " ++ detail

/-- A row of the `hosts` table (fields used by the core). -/
structure Host where
  id : Nat
  full_name : String
  email : String
  hashed_password : String
  deriving Repr, DecidableEq

/-- A row of the `clients` table (fields used by the core). -/
structure Client where
  id : Nat
  full_name : String
  email : String
  hashed_password : String
  deriving Repr, DecidableEq

/-- The `try` body of `get_current_host` (`auth.py` lines 71-103): decode the
token, check `role == "host"` (raising a 403 on mismatch), extract `sub`
(401 when missing), and parse it as an integer id (401 when unparseable; the
inner `except (ValueError, TypeError)` re-raises as an `HTTPException`, which
then escapes to the outer handlers). -/
def host_guard_try_body (tok : Jwt) (now : Nat) : Except TryExc Nat :=
  match jwt_decode tok now with
  | .error e => .error (.jwtErr e)
  | .ok payload =>
    if payload.role ≠ some "host" then
      .error (.httpExc 403 "This endpoint requires host authentication")
    else
      match payload.sub with
      | none => .error (.httpExc 401 "Token missing subject (sub) claim")
      | some s =>
        match py_int s with
        | none => .error (.httpExc 401 "Invalid host ID in token")
        | some i => .ok i

/-- The `try` body of `get_current_client` (`auth.py` lines 137-167),
identical in structure with expected role `"client"`. -/
def client_guard_try_body (tok : Jwt) (now : Nat) : Except TryExc Nat :=
  match jwt_decode tok now with
  | .error e => .error (.jwtErr e)
  | .ok payload =>
    if payload.role ≠ some "client" then
      .error (.httpExc 403 "This endpoint requires client authentication")
    else
      match payload.sub with
      | none => .error (.httpExc 401 "Token missing subject (sub) claim")
      | some s =>
        match py_int s with
        | none => .error (.httpExc 401 "Invalid client ID in token")
        | some i => .ok i

/-- `get_current_host` (`auth.py` lines 60-129).  The `except JWTError`
handler turns `jose` errors into 401s; the `except Exception` handler catches
every other exception — including the guard's own `HTTPException`s, 403
included — and re-raises a 401 with detail
`f"Error validating token: {str(e)}"`.  On success the host is looked up by
id; a missing row is a 401 `"Host not found"`. -/
def get_current_host (tok : Jwt) (now : Nat) (db : List Host) :
    Except HttpErr Host :=
  match host_guard_try_body tok now with
  | .error (.jwtErr e) => .error ⟨401, jwtExceptDetail e⟩
  | .error (.httpExc code detail) =>
      .error ⟨401, "Error validating token: " ++ httpExcStr code detail⟩
  | .ok host_id =>
    match db.find? (fun h => h.id == host_id) with
    | none => .error ⟨401, "Host not found"⟩
    | some h => .ok h

/-- `get_current_client` (`auth.py` lines 132-193), mirroring
`get_current_host` for the `clients` table. -/
def get_current_client (tok : Jwt) (now : Nat) (db : List Client) :
    Except HttpErr Client :=
  match client_guard_try_body tok now with
  | .error (.jwtErr e) => .error ⟨401, jwtExceptDetail e⟩
  | .error (.httpExc code detail) =>
      .error ⟨401, "Error validating token: " ++ httpExcStr code detail⟩
  | .ok client_id =>
    match db.find? (fun c => c.id == client_id) with
    | none => .error ⟨401, "Client not found"⟩
    | some c => .ok c

/-- The HTTP status a guard call fails with, if it fails. -/
def guardStatus {α : Type} : Except HttpErr α → Option Nat
  | .error e => some e.status
  | .ok _ => none

/-- Token issuance as performed by `login_host` (`host_auth.py` lines 91-95):
`sub` is the stringified host id, role `"host"`, and `expires_delta` is the
named 30-minute constant. -/
def login_host_issue (host_id : Nat) (now : Nat) : Jwt :=
  create_access_token { sub := some (py_str_nat host_id), role := some "host" }
    (some (ACCESS_TOKEN_EXPIRE_MINUTES * 60)) now

/-- Token issuance as performed by `login_client` (`client_auth.py`),
identical with role `"client"`. -/
def login_client_issue (client_id : Nat) (now : Nat) : Jwt :=
  create_access_token { sub := some (py_str_nat client_id), role := some "client" }
    (some (ACCESS_TOKEN_EXPIRE_MINUTES * 60)) now

/-! ## Password Hasher (`app/auth.py` lines 23-35)

The hasher is a thin wrapper over the external `bcrypt` library.  A bcrypt
hash value is modelled as either a well-formed hash — a salt together with the
digest it determines, idealized as the hashed secret itself (collision-free;
real bcrypt reads only the first 72 bytes of the secret) — or a malformed
string that is not a valid bcrypt hash at all. -/

/-- A value handed to `bcrypt.checkpw` as the stored hash. -/
inductive BcryptHash where
  | wellFormed (salt : Nat) (secret : String)
  | malformed (raw : String)
  deriving Repr, DecidableEq

/-- Model of `bcrypt.hashpw(password, salt)`: a well-formed hash embedding the
salt, whose digest is determined by salt and password. -/
def bcrypt_hashpw (password : String) (salt : Nat) : BcryptHash :=
  .wellFormed salt password

/-- Model of `bcrypt.checkpw(password, hashed)` per the pyca/bcrypt contract:
for a well-formed stored hash it re-hashes with the embedded salt and compares
digests, returning a `Bool`; for a malformed stored hash it raises
`ValueError("Invalid salt")` (the `.error` case is a raised exception). -/
def bcrypt_checkpw (password : String) (hashed : BcryptHash) :
    Except String Bool :=
  match hashed with
  | .wellFormed _ secret => .ok (password == secret)
  | .malformed _ => .error "Invalid salt"

/-- `get_password_hash(password)` (`auth.py` lines 31-35): `gensalt()` then
`hashpw`; the fresh random salt is made an explicit argument. -/
def get_password_hash (password : String) (salt : Nat) : BcryptHash :=
  bcrypt_hashpw password salt

/-- `verify_password(plain_password, hashed_password)` (`auth.py` lines
23-28): calls `bcrypt.checkpw` directly, with no exception handling of its
own, so whatever `checkpw` raises propagates. -/
def verify_password (plain_password : String) (hashed_password : BcryptHash) :
    Except String Bool :=
  bcrypt_checkpw plain_password hashed_password

/-! ## Payment Methods (`app/models.py`, `app/routers/payment_methods.py`)

The `payment_methods` table is a list of rows; the autoincrement primary key
is modelled by `nextId`.  `created_at` is the commit time of the insert. -/

/-- `PaymentMethodType` (`models.py` lines 8-12). -/
inductive PaymentMethodType where
  | MPESA
  | VISA
  | MASTERCARD
  deriving Repr, DecidableEq

/-- The string value of a `PaymentMethodType` (it is a `str` Enum). -/
def PaymentMethodType.str : PaymentMethodType → String
  | .MPESA => "mpesa"
  | .VISA => "visa"
  | .MASTERCARD => "mastercard"

/-- A row of the `payment_methods` table (`models.py` lines 15-42). -/
structure PaymentMethod where
  id : Nat
  host_id : Nat
  method_type : PaymentMethodType
  mpesa_number : Option String := none
  card_number_hash : Option BcryptHash := none
  card_last_four : Option String := none
  card_type : Option String := none
  expiry_month : Option Nat := none
  expiry_year : Option Nat := none
  cvc_hash : Option BcryptHash := none
  is_default : Bool := false
  created_at : Nat := 0
  deriving Repr, DecidableEq

/-- The autoincrement primary key the store assigns to an inserted row:
strictly greater than every existing id. -/
def nextId (db : List PaymentMethod) : Nat :=
  (db.map PaymentMethod.id).foldr Nat.max 0 + 1

/-- `MpesaPaymentMethodAddRequest` (`schemas.py` lines 230-246) after its
format validator (9-15 digits, not claimed here) has accepted it. -/
structure MpesaPaymentMethodAddRequest where
  mpesa_number : String
  is_default : Bool := false
  deriving Repr, DecidableEq

/-- `card_type` is a `Literal["visa", "mastercard"]`. -/
inductive CardType where
  | visa
  | mastercard
  deriving Repr, DecidableEq

/-- The literal string of a `CardType`. -/
def CardType.str : CardType → String
  | .visa => "visa"
  | .mastercard => "mastercard"

/-- `CardPaymentMethodAddRequest` (`schemas.py` lines 249-290). -/
structure CardPaymentMethodAddRequest where
  card_number : String
  cvc : String
  expiry_month : Nat
  expiry_year : Nat
  card_type : CardType
  is_default : Bool := false
  deriving Repr, DecidableEq

/-- `re.sub(r'[\s-]', '', s)`: remove ASCII whitespace and dashes. -/
def stripSpaceDash (s : String) : String :=
  String.mk (s.toList.filter (fun c =>
    !(c == ' ' || c == '\t' || c == '\n' || c == '\r' || c == '\x0b' ||
      c == '\x0c' || c == '-')))

/-- `re.sub(r'[\s]', '', s)`: remove ASCII whitespace. -/
def stripSpace (s : String) : String :=
  String.mk (s.toList.filter (fun c =>
    !(c == ' ' || c == '\t' || c == '\n' || c == '\r' || c == '\x0b' ||
      c == '\x0c')))

/-- `^\d+$`-style check: every character is a decimal digit. -/
def allDigits (s : String) : Bool :=
  s.toList.all Char.isDigit

/-- The `validate_card_data` model validator (`schemas.py` lines 258-290):
cleans the card number, checks 16 digits and the brand/first-digit match,
cleans and checks the CVC (3-4 digits), rejects expiry strictly before the
current (year, month), and stores the cleaned values back into the request.
`none` models a raised `ValueError` (a 422 rejection upstream). -/
def validate_card_data (r : CardPaymentMethodAddRequest)
    (today_year today_month : Nat) : Option CardPaymentMethodAddRequest :=
  let card_clean := stripSpaceDash r.card_number
  if ¬(card_clean.length = 16 ∧ allDigits card_clean = true) then none
  else if r.card_type = .visa ∧ card_clean.toList.head? ≠ some '4' then none
  else if r.card_type = .mastercard ∧ card_clean.toList.head? ≠ some '5' then none
  else
    let cvc_clean := stripSpace r.cvc
    if ¬(3 ≤ cvc_clean.length ∧ cvc_clean.length ≤ 4 ∧ allDigits cvc_clean = true) then none
    else if r.expiry_year < today_year ∨
        (r.expiry_year = today_year ∧ r.expiry_month < today_month) then none
    else some { r with card_number := card_clean, cvc := cvc_clean }

/-- The default-unsetting loop shared by both add endpoints
(`payment_methods.py` lines 43-49 and 85-91): every row of the host with
`is_default = True` gets it cleared. -/
def clearHostDefaults (hostId : Nat) (db : List PaymentMethod) :
    List PaymentMethod :=
  db.map (fun pm =>
    if pm.host_id = hostId ∧ pm.is_default = true then { pm with is_default := false }
    else pm)

/-- `add_mpesa_payment_method` (`payment_methods.py` lines 29-63): clear the
host's defaults when the new method is to be default, then insert the new row.
Returns the created row and the new table state. -/
def add_mpesa_payment_method (hostId : Nat)
    (request : MpesaPaymentMethodAddRequest) (now : Nat)
    (db : List PaymentMethod) : PaymentMethod × List PaymentMethod :=
  let db1 := if request.is_default then clearHostDefaults hostId db else db
  let pm : PaymentMethod :=
    { id := nextId db, host_id := hostId, method_type := .MPESA,
      mpesa_number := some request.mpesa_number,
      is_default := request.is_default, created_at := now }
  (pm, db1 ++ [pm])

/-- `hash_card_number` (`payment_methods.py` lines 18-20). -/
def hash_card_number (card_number : String) (salt : Nat) : BcryptHash :=
  get_password_hash card_number salt

/-- `hash_cvc` (`payment_methods.py` lines 23-25). -/
def hash_cvc (cvc : String) (salt : Nat) : BcryptHash :=
  get_password_hash cvc salt

/-- Python `s[-4:]`: the last four characters (the whole string when it is
shorter). -/
def pyLastFour (s : String) : String :=
  String.mk (s.toList.drop (s.toList.length - 4))

/-- `add_card_payment_method` (`payment_methods.py` lines 66-118): clear the
host's defaults when the new method is to be default, take the last four
digits of the (already cleaned) card number for display, hash the card number
and CVC, and insert the new row.  `salt1`/`salt2` are the fresh salts of the
two hash calls. -/
def add_card_payment_method (hostId : Nat)
    (request : CardPaymentMethodAddRequest) (salt1 salt2 now : Nat)
    (db : List PaymentMethod) : PaymentMethod × List PaymentMethod :=
  let db1 := if request.is_default then clearHostDefaults hostId db else db
  let card_last_four := pyLastFour request.card_number
  let pm : PaymentMethod :=
    { id := nextId db, host_id := hostId,
      method_type := match request.card_type with
        | .visa => .VISA
        | .mastercard => .MASTERCARD,
      card_number_hash := some (hash_card_number request.card_number salt1),
      card_last_four := some card_last_four,
      card_type := some request.card_type.str,
      expiry_month := some request.expiry_month,
      expiry_year := some request.expiry_year,
      cvc_hash := some (hash_cvc request.cvc salt2),
      is_default := request.is_default, created_at := now }
  (pm, db1 ++ [pm])

/-- `delete_payment_method` (`payment_methods.py` lines 166-191): look up the
row by id *and* owner; absent (or owned by someone else) is a 404; otherwise
the fetched row is deleted and nothing else changes. -/
def delete_payment_method (payment_method_id hostId : Nat)
    (db : List PaymentMethod) : Except HttpErr Unit × List PaymentMethod :=
  match db.find? (fun pm => pm.id == payment_method_id && pm.host_id == hostId) with
  | none => (.error ⟨404, "Payment method not found"⟩, db)
  | some _ =>
      (.ok (), db.eraseP (fun pm => pm.id == payment_method_id && pm.host_id == hostId))

/-- The unset loop of `set_default_payment_method` (`payment_methods.py`
lines 218-225): clear `is_default` on every row of the host except the one
being promoted. -/
def clearOtherDefaults (hostId pmId : Nat) (db : List PaymentMethod) :
    List PaymentMethod :=
  db.map (fun pm =>
    if pm.host_id = hostId ∧ pm.is_default = true ∧ pm.id ≠ pmId then
      { pm with is_default := false }
    else pm)

/-- Setting `is_default = True` on the fetched ORM row: the first row
matching (id, owner). -/
def setDefaultFirst (pmId hostId : Nat) : List PaymentMethod → List PaymentMethod
  | [] => []
  | pm :: rest =>
    if pm.id = pmId ∧ pm.host_id = hostId then { pm with is_default := true } :: rest
    else pm :: setDefaultFirst pmId hostId rest

/-- `set_default_payment_method` (`payment_methods.py` lines 195-233): look
up the row by id and owner (404 when absent), clear the host's other
defaults, set this row default. -/
def set_default_payment_method (payment_method_id hostId : Nat)
    (db : List PaymentMethod) : Except HttpErr Unit × List PaymentMethod :=
  match db.find? (fun pm => pm.id == payment_method_id && pm.host_id == hostId) with
  | none => (.error ⟨404, "Payment method not found"⟩, db)
  | some _ =>
      (.ok (), setDefaultFirst payment_method_id hostId
        (clearOtherDefaults hostId payment_method_id db))

/-- `PaymentMethodResponse` (`schemas.py` lines 293-308): the serialized view
of a stored row.  Its field list is exhaustive — there is no field for the
full card number, the card-number hash, or the CVC hash. -/
structure PaymentMethodResponse where
  id : Nat
  host_id : Nat
  method_type : String
  mpesa_number : Option String := none
  card_last_four : Option String := none
  card_type : Option String := none
  expiry_month : Option Nat := none
  expiry_year : Option Nat := none
  is_default : Bool
  created_at : Nat
  deriving Repr, DecidableEq

/-- Serialization of a stored row through `PaymentMethodResponse`
(`from_attributes`): each response field is copied from the attribute of the
same name; `card_number_hash` and `cvc_hash` have no counterpart. -/
def paymentMethodToResponse (pm : PaymentMethod) : PaymentMethodResponse :=
  { id := pm.id, host_id := pm.host_id, method_type := pm.method_type.str,
    mpesa_number := pm.mpesa_number, card_last_four := pm.card_last_four,
    card_type := pm.card_type, expiry_month := pm.expiry_month,
    expiry_year := pm.expiry_year, is_default := pm.is_default,
    created_at := pm.created_at }

/-- One payment-method operation of some host, as invoked through the
endpoints. -/
inductive PmOp where
  | addMpesa (hostId : Nat) (request : MpesaPaymentMethodAddRequest) (now : Nat)
  | addCard (hostId : Nat) (request : CardPaymentMethodAddRequest)
      (salt1 salt2 now : Nat)
  | setDefault (hostId payment_method_id : Nat)
  | delete (hostId payment_method_id : Nat)

/-- The table state after one operation (failed operations leave it
unchanged). -/
def applyPmOp (db : List PaymentMethod) : PmOp → List PaymentMethod
  | .addMpesa h r now => (add_mpesa_payment_method h r now db).2
  | .addCard h r s1 s2 now => (add_card_payment_method h r s1 s2 now db).2
  | .setDefault h pid => (set_default_payment_method pid h db).2
  | .delete h pid => (delete_payment_method pid h db).2

/-- The table state after a sequence of operations. -/
def runPmOps (db : List PaymentMethod) (ops : List PmOp) : List PaymentMethod :=
  ops.foldl applyPmOp db

/-- Number of default payment methods a host has. -/
def defaultCount (hostId : Nat) (db : List PaymentMethod) : Nat :=
  (db.filter (fun pm => pm.host_id == hostId && pm.is_default)).length

/-- The claimed invariant: at most one default payment method per host. -/
def DefaultInv (db : List PaymentMethod) : Prop :=
  ∀ hostId : Nat, defaultCount hostId db ≤ 1

/-- Primary-key uniqueness of the `payment_methods` table. -/
def NodupIds (db : List PaymentMethod) : Prop :=
  (db.map PaymentMethod.id).Nodup

/-- Row-level effect of a successful `set_default_payment_method pid h` on a
table with unique ids: the promoted row becomes default, every other default
row of the host is cleared, everything else is untouched. -/
def setDefaultRow (pid h : Nat) (pm : PaymentMethod) : PaymentMethod :=
  if pm.id = pid ∧ pm.host_id = h then { pm with is_default := true }
  else if pm.host_id = h ∧ pm.is_default = true then { pm with is_default := false }
  else pm

/-! ## Model of Python `json.dumps` / `json.loads` on lists of strings

`cars.py` stores the features list as `json.dumps(request.features)` and reads
it back with `json.loads`.  The codec is modelled character-for-character for
the documents that occur here: arrays of strings, `", "`-separated (the
`json.dumps` default), with `"` and `\` escaped.  (Python additionally escapes
control and non-ASCII characters as `\uXXXX`, which `loads` maps back — the
round-trip behaviour is the same.)  `jsonLoadsList` returns `none` where
`json.loads` would raise or produce something other than a string array. -/

/-- Escape one character inside a JSON string literal. -/
def escCharJ (c : Char) : List Char :=
  if c = '"' ∨ c = '\\' then ['\\', c] else [c]

/-- A JSON string literal for the character list `s`. -/
def encodeJStringL (s : List Char) : List Char :=
  '"' :: (s.flatMap escCharJ ++ ['"'])

/-- The `", "`-joined encoded items of a JSON array body. -/
def joinItems : List (List Char) → List Char
  | [] => []
  | [s] => encodeJStringL s
  | s :: rest => encodeJStringL s ++ ',' :: ' ' :: joinItems rest

/-- `json.dumps` on a list of strings. -/
def jsonDumps (l : List String) : String :=
  String.mk ('[' :: (joinItems (l.map String.toList) ++ [']']))

/-- JSON whitespace. -/
def isJsonWs (c : Char) : Bool :=
  c = ' ' || c = '\t' || c = '\n' || c = '\r'

/-- Drop leading JSON whitespace. -/
def skipWs : List Char → List Char
  | [] => []
  | c :: rest => if isJsonWs c then skipWs rest else c :: rest

/-- Parse the body of a JSON string literal after the opening quote; returns
the decoded characters and the input after the closing quote.  `fuel` bounds
the number of parse steps and is always supplied large enough. -/
def parseJStringBodyF : Nat → List Char → Option (List Char × List Char)
  | 0, _ => none
  | _ + 1, [] => none
  | fuel + 1, c :: rest =>
    if c = '"' then some ([], rest)
    else if c = '\\' then
      match rest with
      | [] => none
      | c2 :: rest2 => (parseJStringBodyF fuel rest2).map (fun p => (c2 :: p.1, p.2))
    else (parseJStringBodyF fuel rest).map (fun p => (c :: p.1, p.2))

/-- Parse the body of a JSON string literal after the opening quote. -/
def parseJStringBody (l : List Char) : Option (List Char × List Char) :=
  parseJStringBodyF l.length l

/-- Parse one-or-more comma-separated JSON string elements up to the closing
`]`.  `fuel` bounds the number of elements and is always supplied large
enough. -/
def parseItems : Nat → List Char → Option (List (List Char) × List Char)
  | 0, _ => none
  | fuel + 1, l =>
    match l with
    | '"' :: rest =>
      match parseJStringBody rest with
      | none => none
      | some (s, rest1) =>
        match skipWs rest1 with
        | ',' :: rest2 =>
          match parseItems fuel (skipWs rest2) with
          | none => none
          | some (ss, rest3) => some (s :: ss, rest3)
        | ']' :: rest2 => some ([s], rest2)
        | _ => none
    | _ => none

/-- `json.loads` on the documents at issue: a (possibly empty) JSON array of
strings, `none` for anything it cannot decode. -/
def jsonLoadsList (str : String) : Option (List String) :=
  match str.toList with
  | '[' :: rest =>
    match skipWs rest with
    | [] => none
    | [']'] => some []
    | l2 =>
      match parseItems (l2.length + 1) l2 with
      | some (ss, rest3) =>
          if skipWs rest3 = [] then some (ss.map String.mk) else none
      | none => none
  | _ => none

/-! ## Car Listing Workflow (`app/models.py`, `app/routers/cars.py`) -/

/-- A row of the `cars` table (`models.py` lines 87-129).  `Float` columns
(rates, coordinates) carry opaque `Int` stand-ins — the handlers only store
and return them. -/
structure Car where
  id : Nat
  host_id : Nat
  name : Option String := none
  model : Option String := none
  body_type : Option String := none
  year : Option Nat := none
  description : Option String := none
  seats : Option Nat := none
  fuel_type : Option String := none
  transmission : Option String := none
  color : Option String := none
  mileage : Option Nat := none
  features : Option String := none
  daily_rate : Option Int := none
  weekly_rate : Option Int := none
  monthly_rate : Option Int := none
  min_rental_days : Option Nat := none
  max_rental_days : Option Nat := none
  min_age_requirement : Option Nat := none
  rules : Option String := none
  location_name : Option String := none
  latitude : Option Int := none
  longitude : Option Int := none
  is_complete : Bool := false
  created_at : Nat := 0
  deriving Repr, DecidableEq

/-- `CarBasicsRequest` (`schemas.py` lines 130-136), after field validation. -/
structure CarBasicsRequest where
  name : String
  model : String
  body_type : String
  year : Nat
  description : String
  deriving Repr, DecidableEq

/-- `CarTechnicalSpecsRequest` (`schemas.py` lines 139-146), after field
validation (`features` capped at 12 entries upstream). -/
structure CarTechnicalSpecsRequest where
  seats : Nat
  fuel_type : String
  transmission : String
  color : String
  mileage : Nat
  features : List String := []
  deriving Repr, DecidableEq

/-- `CarPricingRulesRequest` (`schemas.py` lines 149-168), after field
validation and the `max_rental_days = 0 → None` normalization. -/
structure CarPricingRulesRequest where
  daily_rate : Int
  weekly_rate : Int
  monthly_rate : Int
  min_rental_days : Nat
  max_rental_days : Option Nat := none
  min_age_requirement : Nat
  rules : String
  deriving Repr, DecidableEq

/-- `CarLocationRequest` (`schemas.py` lines 171-186). -/
structure CarLocationRequest where
  location_name : Option String := none
  latitude : Option Int := none
  longitude : Option Int := none
  deriving Repr, DecidableEq

/-- Python truthiness of an optional string: `None` and `""` are falsy. -/
def truthyStr : Option String → Bool
  | none => false
  | some s => s != ""

/-- The `location_provided` model validator (`schemas.py` lines 177-186),
with Python truthiness on `location_name` and explicit `is None` tests on the
coordinates: true exactly when the request passes all three checks. -/
def CarLocationRequest.location_provided (r : CarLocationRequest) : Bool :=
  !(!truthyStr r.location_name && (r.latitude.isNone || r.longitude.isNone)) &&
  !(truthyStr r.location_name && (r.latitude.isSome || r.longitude.isSome)) &&
  !((r.latitude.isSome && r.longitude.isNone) ||
    (r.latitude.isNone && r.longitude.isSome))

/-- The autoincrement primary key for an inserted car row. -/
def nextCarId (db : List Car) : Nat :=
  (db.map Car.id).foldr Nat.max 0 + 1

/-- `create_car_basics` (`cars.py` lines 59-91): a new incomplete car owned
by the caller, with only the Basics fields set. -/
def create_car_basics (hostId : Nat) (request : CarBasicsRequest) (now : Nat)
    (db : List Car) : Car × List Car :=
  let car : Car :=
    { id := nextCarId db, host_id := hostId, name := some request.name,
      model := some request.model, body_type := some request.body_type,
      year := some request.year, description := some request.description,
      is_complete := false, created_at := now }
  (car, db ++ [car])

/-- `db.query(Car).filter(Car.id == car_id).first()`. -/
def findCar (car_id : Nat) (db : List Car) : Option Car :=
  db.find? (fun c => c.id == car_id)

/-- Mutating the fetched ORM row: update the first row with the given id. -/
def updateCarById (car_id : Nat) (f : Car → Car) : List Car → List Car
  | [] => []
  | c :: rest =>
    if c.id = car_id then f c :: rest else c :: updateCarById car_id f rest

/-- The field updates of the Specs stage (`cars.py` lines 127-133):
`features` is serialized with `json.dumps`, except that a falsy (empty) list
is stored as `None`. -/
def specsApply (request : CarTechnicalSpecsRequest) (c : Car) : Car :=
  { c with
    seats := some request.seats, fuel_type := some request.fuel_type,
    transmission := some request.transmission, color := some request.color,
    mileage := some request.mileage,
    features :=
      if request.features ≠ [] then some (jsonDumps request.features) else none }

/-- `update_car_specs` (`cars.py` lines 94-138): 404 when the car id is
unknown, 403 when the caller is not the owner — both checked before any field
is written, so the table is returned unchanged — otherwise the spec fields are
overwritten. -/
def update_car_specs (car_id hostId : Nat) (request : CarTechnicalSpecsRequest)
    (db : List Car) : Except HttpErr Unit × List Car :=
  match findCar car_id db with
  | none => (.error ⟨404, "Car not found"⟩, db)
  | some car =>
    if car.host_id ≠ hostId then
      (.error ⟨403, "You don't have permission to update this car"⟩, db)
    else
      (.ok (), updateCarById car_id (specsApply request) db)

/-- The field updates of the Pricing stage (`cars.py` lines 214-221). -/
def pricingApply (request : CarPricingRulesRequest) (c : Car) : Car :=
  { c with
    daily_rate := some request.daily_rate,
    weekly_rate := some request.weekly_rate,
    monthly_rate := some request.monthly_rate,
    min_rental_days := some request.min_rental_days,
    max_rental_days := request.max_rental_days,
    min_age_requirement := some request.min_age_requirement,
    rules := some request.rules }

/-- `update_car_pricing` (`cars.py` lines 180-226): same 404/403 discipline
as the Specs stage. -/
def update_car_pricing (car_id hostId : Nat) (request : CarPricingRulesRequest)
    (db : List Car) : Except HttpErr Unit × List Car :=
  match findCar car_id db with
  | none => (.error ⟨404, "Car not found"⟩, db)
  | some car =>
    if car.host_id ≠ hostId then
      (.error ⟨403, "You don't have permission to update this car"⟩, db)
    else
      (.ok (), updateCarById car_id (pricingApply request) db)

/-- The field updates of the Location stage (`cars.py` lines 260-271): a
truthy `location_name` is stored and the coordinates cleared, otherwise the
coordinates are stored and the name cleared; `is_complete` is set
unconditionally. -/
def locationApply (request : CarLocationRequest) (c : Car) : Car :=
  let c1 :=
    if truthyStr request.location_name then
      { c with
        location_name := request.location_name, latitude := none,
        longitude := none }
    else
      { c with
        location_name := none, latitude := request.latitude,
        longitude := request.longitude }
  { c1 with is_complete := true }

/-- `update_car_location` (`cars.py` lines 229-276): same 404/403 discipline,
then the location update and the unconditional completion flag. -/
def update_car_location (car_id hostId : Nat) (request : CarLocationRequest)
    (db : List Car) : Except HttpErr Unit × List Car :=
  match findCar car_id db with
  | none => (.error ⟨404, "Car not found"⟩, db)
  | some car =>
    if car.host_id ≠ hostId then
      (.error ⟨403, "You don't have permission to update this car"⟩, db)
    else
      (.ok (), updateCarById car_id (locationApply request) db)

/-- `CarResponse` (`schemas.py` lines 189-219). -/
structure CarResponse where
  id : Nat
  host_id : Nat
  name : Option String := none
  model : Option String := none
  body_type : Option String := none
  year : Option Nat := none
  description : Option String := none
  seats : Option Nat := none
  fuel_type : Option String := none
  transmission : Option String := none
  color : Option String := none
  mileage : Option Nat := none
  features : Option (List String) := none
  daily_rate : Option Int := none
  weekly_rate : Option Int := none
  monthly_rate : Option Int := none
  min_rental_days : Option Nat := none
  max_rental_days : Option Nat := none
  min_age_requirement : Option Nat := none
  rules : Option String := none
  location_name : Option String := none
  latitude : Option Int := none
  longitude : Option Int := none
  is_complete : Bool
  created_at : Nat
  deriving Repr, DecidableEq

/-- `_car_to_response` (`cars.py` lines 20-56): the stored features text is
decoded with `json.loads` when truthy (non-`None`, nonempty); a decode failure
is caught and yields `None`. -/
def _car_to_response (db_car : Car) : CarResponse :=
  let features : Option (List String) :=
    match db_car.features with
    | none => none
    | some s => if s = "" then none else jsonLoadsList s
  { id := db_car.id, host_id := db_car.host_id, name := db_car.name,
    model := db_car.model, body_type := db_car.body_type, year := db_car.year,
    description := db_car.description, seats := db_car.seats,
    fuel_type := db_car.fuel_type, transmission := db_car.transmission,
    color := db_car.color, mileage := db_car.mileage, features := features,
    daily_rate := db_car.daily_rate, weekly_rate := db_car.weekly_rate,
    monthly_rate := db_car.monthly_rate,
    min_rental_days := db_car.min_rental_days,
    max_rental_days := db_car.max_rental_days,
    min_age_requirement := db_car.min_age_requirement, rules := db_car.rules,
    location_name := db_car.location_name, latitude := db_car.latitude,
    longitude := db_car.longitude, is_complete := db_car.is_complete,
    created_at := db_car.created_at }

/-- `get_car` (`cars.py` lines 279-294): public read of any car by id. -/
def get_car (car_id : Nat) (db : List Car) : Except HttpErr CarResponse :=
  match findCar car_id db with
  | none => .error ⟨404, "Car not found"⟩
  | some car => .ok (_car_to_response car)

/-! ## Lemmas: decimal round-trip -/

theorem digitChar_spec : ∀ n < 10, (Nat.digitChar n).isDigit = true ∧
    (Nat.digitChar n).toNat - 48 = n := by decide

theorem natDigitsRevF_fuel_eq : ∀ fuel fuel' n, n < fuel → n < fuel' →
    natDigitsRevF fuel n = natDigitsRevF fuel' n := by
  intro fuel
  induction fuel with
  | zero => omega
  | succ f ih =>
    intro fuel' n hn hn'
    match fuel' with
    | 0 => omega
    | f' + 1 =>
      simp only [natDigitsRevF]
      split
      · rfl
      · next h =>
        exact congrArg _ (ih f' (n / 10) (by omega) (by omega))

theorem natDigitsRev_ne_nil (n : Nat) : natDigitsRev n ≠ [] := by
  unfold natDigitsRev natDigitsRevF
  split <;> simp

theorem natDigitsRev_all_digits (n : Nat) :
    (natDigitsRev n).all Char.isDigit = true := by
  induction n using Nat.strong_induction_on with
  | _ n ih =>
    unfold natDigitsRev natDigitsRevF
    split
    · next h => simp [(digitChar_spec n h).1]
    · next h =>
      have hd := (digitChar_spec (n % 10) (Nat.mod_lt _ (by omega))).1
      have hlt : n / 10 < n := Nat.div_lt_self (by omega) (by omega)
      have heq : natDigitsRevF n (n / 10) = natDigitsRev (n / 10) := by
        unfold natDigitsRev
        exact natDigitsRevF_fuel_eq n (n / 10 + 1) (n / 10) (by omega) (by omega)
      rw [heq]
      have := ih (n / 10) hlt
      simp [hd, this]

theorem foldl_digits_rev (n : Nat) : ∀ acc : Nat,
    ((natDigitsRev n).reverse).foldl (fun acc c => acc * 10 + (c.toNat - 48)) acc
      = acc * 10 ^ (natDigitsRev n).length + n := by
  induction n using Nat.strong_induction_on with
  | _ n ih =>
    intro acc
    unfold natDigitsRev natDigitsRevF
    split
    · next h =>
      simp [List.foldl, (digitChar_spec n h).2]
    · next h =>
      have hlt : n / 10 < n := Nat.div_lt_self (by omega) (by omega)
      have heq : natDigitsRevF n (n / 10) = natDigitsRev (n / 10) := by
        unfold natDigitsRev
        exact natDigitsRevF_fuel_eq n (n / 10 + 1) (n / 10) (by omega) (by omega)
      rw [heq]
      have ihn := ih (n / 10) hlt acc
      have hdv := (digitChar_spec (n % 10) (Nat.mod_lt _ (by omega))).2
      simp only [List.reverse_cons, List.foldl_append, List.foldl_cons,
        List.foldl_nil, ihn, List.length_cons, hdv]
      have : acc * 10 ^ ((natDigitsRev (n / 10)).length + 1)
          = acc * 10 ^ (natDigitsRev (n / 10)).length * 10 := by ring
      rw [this]
      omega

/-- Round-trip of the Python `str`/`int` pair on nonnegative ids. -/
theorem py_int_py_str (n : Nat) : py_int (py_str_nat n) = some n := by
  have hne := natDigitsRev_ne_nil n
  have hall := natDigitsRev_all_digits n
  have hfold := foldl_digits_rev n 0
  unfold py_int py_str_nat
  rw [if_pos]
  · simp only [String.toList]
    rw [hfold]
    simp
  · refine ⟨by simp [hne], ?_⟩
    simp only [String.toList]
    rw [List.all_reverse]
    exact hall

/-! ## Claims C1, C3, C4 -/

theorem jwtExceptDetail_expired :
    jwtExceptDetail .expiredSignature = "Token has expired" := rfl

/-- C1: the claim says a signature-valid token with the wrong role claim fails
with a 403-equivalent `WrongRole`, distinct from the 401-equivalent
`Unauthenticated`.  The source does construct a 403 `HTTPException` for this
case, but raises it inside the guard's `try` block, whose `except Exception`
handler catches it (an `HTTPException` is an `Exception`) and re-raises a 401.
So a role="client" token presented to the host guard — and vice versa — is
rejected with status 401, not 403: the code contradicts its own explicit 403
intent. -/
theorem c1_wrong_role_rejected_as_401 :
    get_current_host (.signed { sub := some "1", role := some "client", exp := 600 }) 0
        [{ id := 1, full_name := "Alice Host", email := "alice@example.com",
           hashed_password := "hp" }]
      = .error ⟨401, "Error validating token: 403: This endpoint requires host authentication"⟩
    ∧ get_current_client (.signed { sub := some "1", role := some "host", exp := 600 }) 0
        [{ id := 1, full_name := "Carl Client", email := "carl@example.com",
           hashed_password := "cp" }]
      = .error ⟨401, "Error validating token: 403: This endpoint requires client authentication"⟩
    ∧ guardStatus (get_current_host
        (.signed { sub := some "1", role := some "client", exp := 600 }) 0
        [{ id := 1, full_name := "Alice Host", email := "alice@example.com",
           hashed_password := "hp" }]) ≠ some 403 :=
  ⟨rfl, rfl, by decide⟩

/-- C3: a token issued for host `idn` with a (positive) ttl verifies through
the host guard at any time strictly before `now + ttl`, resolving to the host
row with that id; from the moment the expiry is reached, verification fails
with the dedicated 401 "Token has expired" error. -/
theorem c3_issue_then_verify (idn ttl now : Nat) (db : List Host) (h : Host)
    (httl : 0 < ttl)
    (hfind : db.find? (fun x => x.id == idn) = some h) :
    h.id = idn
    ∧ (∀ now' : Nat, now' < now + ttl →
        get_current_host (create_access_token
            { sub := some (py_str_nat idn), role := some "host" } (some ttl) now) now' db
          = .ok h)
    ∧ (∀ now'' : Nat, now + ttl ≤ now'' →
        get_current_host (create_access_token
            { sub := some (py_str_nat idn), role := some "host" } (some ttl) now) now'' db
          = .error ⟨401, "Token has expired"⟩) := by
  have h0 : ¬(ttl = 0) := by omega
  have hid : h.id = idn := by
    have := List.find?_some hfind
    simpa using this
  refine ⟨hid, ?_, ?_⟩
  · intro now' hlt
    have hexp : ¬(now + ttl ≤ now') := by omega
    simp [create_access_token, get_current_host, host_guard_try_body, jwt_decode,
      h0, hexp, py_int_py_str, hfind]
  · intro now'' hge
    simp [create_access_token, get_current_host, host_guard_try_body, jwt_decode,
      h0, hge, jwtExceptDetail_expired]

theorem c3_issue_then_verify_witness :
    ({ id := 7, full_name := "H", email := "h@x", hashed_password := "p" } : Host).id = 7
    ∧ get_current_host (create_access_token
          { sub := some (py_str_nat 7), role := some "host" } (some 60) 0) 30
        [{ id := 7, full_name := "H", email := "h@x", hashed_password := "p" }]
      = .ok { id := 7, full_name := "H", email := "h@x", hashed_password := "p" }
    ∧ get_current_host (create_access_token
          { sub := some (py_str_nat 7), role := some "host" } (some 60) 0) 60
        [{ id := 7, full_name := "H", email := "h@x", hashed_password := "p" }]
      = .error ⟨401, "Token has expired"⟩ := by
  have h := c3_issue_then_verify 7 60 0
    [{ id := 7, full_name := "H", email := "h@x", hashed_password := "p" }]
    { id := 7, full_name := "H", email := "h@x", hashed_password := "p" }
    (by decide) (by rfl)
  exact ⟨h.1, h.2.1 30 (by decide), h.2.2 60 (by decide)⟩

/-- C4 counterexample: the claim states the 15-minute internal fallback
applies only when the caller omits the ttl entirely.  But `create_access_token`
guards on `if expires_delta:`, and a zero `timedelta` is falsy in Python, so a
caller-supplied zero ttl also takes the 15-minute fallback: the expiry is
`now + 900`, not `now + 0`. -/
theorem c4_zero_ttl_counterexample :
    create_access_token { sub := some "1", role := some "host" } (some 0) 0
      = .signed { sub := some "1", role := some "host", exp := 900 }
    ∧ (900 : Nat) ≠ 0 + 0 :=
  ⟨rfl, by decide⟩

/-- C4 (amended): a caller-supplied nonzero ttl gives expiry `now + ttl`, and
the login endpoints supply the named 30-minute constant; the 15-minute
internal fallback applies when the caller omits the ttl entirely or supplies a
zero ttl (a zero `timedelta` is falsy). -/
theorem c4_ttl_defaults (data : TokenData) (now : Nat) :
    (∀ d : Nat, d ≠ 0 → create_access_token data (some d) now
        = .signed { sub := data.sub, role := data.role, exp := now + d })
    ∧ create_access_token data none now
        = .signed { sub := data.sub, role := data.role, exp := now + 15 * 60 }
    ∧ create_access_token data (some 0) now
        = .signed { sub := data.sub, role := data.role, exp := now + 15 * 60 }
    ∧ (∀ hid : Nat, login_host_issue hid now
        = .signed { sub := some (py_str_nat hid), role := some "host",
                    exp := now + ACCESS_TOKEN_EXPIRE_MINUTES * 60 })
    ∧ (∀ cid : Nat, login_client_issue cid now
        = .signed { sub := some (py_str_nat cid), role := some "client",
                    exp := now + ACCESS_TOKEN_EXPIRE_MINUTES * 60 }) := by
  refine ⟨?_, rfl, rfl, ?_, ?_⟩
  · intro d hd
    simp [create_access_token, hd]
  · intro hid
    simp [login_host_issue, create_access_token, ACCESS_TOKEN_EXPIRE_MINUTES]
  · intro cid
    simp [login_client_issue, create_access_token, ACCESS_TOKEN_EXPIRE_MINUTES]

theorem c4_ttl_defaults_witness :
    create_access_token { sub := some "1", role := some "host" } (some 60) 0
      = .signed { sub := some "1", role := some "host", exp := 0 + 60 } :=
  (c4_ttl_defaults { sub := some "1", role := some "host" } 0).1 60 (by decide)

/-! ## Lemmas: payment-method table -/

theorem defaultCount_eq_countP (h : Nat) (db : List PaymentMethod) :
    defaultCount h db = db.countP (fun pm => pm.host_id == h && pm.is_default) := by
  simp [defaultCount, List.countP_eq_length_filter]

theorem clearHostDefaults_ids (h : Nat) (db : List PaymentMethod) :
    (clearHostDefaults h db).map PaymentMethod.id = db.map PaymentMethod.id := by
  rw [clearHostDefaults, List.map_map]
  apply List.map_congr_left
  intro pm _
  simp only [Function.comp]
  split <;> rfl

theorem clearOtherDefaults_ids (h pid : Nat) (db : List PaymentMethod) :
    (clearOtherDefaults h pid db).map PaymentMethod.id = db.map PaymentMethod.id := by
  rw [clearOtherDefaults, List.map_map]
  apply List.map_congr_left
  intro pm _
  simp only [Function.comp]
  split <;> rfl

theorem setDefaultFirst_ids (pid h : Nat) : ∀ db : List PaymentMethod,
    (setDefaultFirst pid h db).map PaymentMethod.id = db.map PaymentMethod.id
  | [] => rfl
  | pm :: rest => by
    simp only [setDefaultFirst]
    split
    · simp
    · simp [setDefaultFirst_ids pid h rest]

theorem le_foldr_max (a : Nat) : ∀ l : List Nat, a ∈ l → a ≤ l.foldr Nat.max 0
  | b :: l, h => by
    rcases List.mem_cons.mp h with rfl | h'
    · exact Nat.le_max_left _ _
    · exact Nat.le_trans (le_foldr_max a l h') (Nat.le_max_right _ _)

theorem id_lt_nextId {pm : PaymentMethod} {db : List PaymentMethod}
    (h : pm ∈ db) : pm.id < nextId db := by
  have := le_foldr_max pm.id (db.map PaymentMethod.id)
    (List.mem_map_of_mem PaymentMethod.id h)
  unfold nextId
  omega

theorem nodupIds_append_new (db db1 : List PaymentMethod) (pm : PaymentMethod)
    (hids : db1.map PaymentMethod.id = db.map PaymentMethod.id)
    (hnd : NodupIds db) (hfresh : pm.id = nextId db) :
    NodupIds (db1 ++ [pm]) := by
  unfold NodupIds at *
  rw [List.map_append, hids, List.nodup_append]
  refine ⟨hnd, by simp, ?_⟩
  intro a ha hb
  simp only [List.map_cons, List.map_nil, List.mem_singleton] at hb
  rcases List.mem_map.mp ha with ⟨x, hx, rfl⟩
  have := id_lt_nextId hx
  omega

theorem defaultCount_append (g : Nat) (db1 : List PaymentMethod)
    (pm : PaymentMethod) :
    defaultCount g (db1 ++ [pm])
      = defaultCount g db1
        + (if pm.host_id = g ∧ pm.is_default = true then 1 else 0) := by
  rw [defaultCount_eq_countP, defaultCount_eq_countP, List.countP_append]
  congr 1
  by_cases hc : pm.host_id = g ∧ pm.is_default = true
  · simp [List.countP_cons, hc.1, hc.2]
  · rw [if_neg hc]
    simp only [List.countP_cons, List.countP_nil]
    rcases Decidable.not_and_iff_or_not .. |>.mp hc with h1 | h2
    · simp [h1]
    · simp [h2]

theorem defaultCount_clear_self (h : Nat) (db : List PaymentMethod) :
    defaultCount h (clearHostDefaults h db) = 0 := by
  rw [defaultCount_eq_countP, clearHostDefaults, List.countP_map,
    List.countP_eq_zero]
  intro pm _
  simp only [Function.comp]
  by_cases hh : pm.host_id = h <;> cases hd : pm.is_default <;> simp_all

theorem defaultCount_clear_other (h g : Nat) (db : List PaymentMethod)
    (hne : g ≠ h) :
    defaultCount g (clearHostDefaults h db) = defaultCount g db := by
  rw [defaultCount_eq_countP, defaultCount_eq_countP, clearHostDefaults,
    List.countP_map]
  apply List.countP_congr
  intro pm _
  simp only [Function.comp]
  by_cases hh : pm.host_id = h <;> cases hd : pm.is_default <;>
    simp_all <;> omega

theorem setDefaultFirst_eq_map (pid h : Nat) :
    ∀ db : List PaymentMethod, NodupIds db →
    setDefaultFirst pid h db
      = db.map (fun pm =>
          if pm.id = pid ∧ pm.host_id = h then { pm with is_default := true }
          else pm)
  | [], _ => rfl
  | pm :: rest, hnd => by
    have hnd' : NodupIds rest := by
      unfold NodupIds at *
      simp only [List.map_cons, List.nodup_cons] at hnd
      exact hnd.2
    have hhead : pm.id ∉ rest.map PaymentMethod.id := by
      unfold NodupIds at hnd
      simp only [List.map_cons, List.nodup_cons] at hnd
      exact hnd.1
    simp only [setDefaultFirst, List.map_cons]
    split
    · next hc =>
      congr 1
      refine ((List.map_congr_left ?_).trans (List.map_id' rest)).symm
      intro x hx
      have hxid : x.id ≠ pid := by
        intro hxe
        apply hhead
        have hmem : x.id ∈ rest.map PaymentMethod.id :=
          List.mem_map_of_mem PaymentMethod.id hx
        rw [hxe, ← hc.1] at hmem
        exact hmem
      rw [if_neg (fun hcc => hxid hcc.1)]
    · next hc =>
      rw [setDefaultFirst_eq_map pid h rest hnd']

theorem set_default_db_eq (pid h : Nat) (db : List PaymentMethod)
    (hnd : NodupIds db) :
    setDefaultFirst pid h (clearOtherDefaults h pid db)
      = db.map (setDefaultRow pid h) := by
  have hnd' : NodupIds (clearOtherDefaults h pid db) := by
    unfold NodupIds
    rw [clearOtherDefaults_ids]
    exact hnd
  rw [setDefaultFirst_eq_map pid h _ hnd', clearOtherDefaults, List.map_map]
  apply List.map_congr_left
  intro pm _
  simp only [Function.comp, setDefaultRow]
  by_cases h1 : pm.id = pid <;> by_cases h2 : pm.host_id = h <;>
    cases hd : pm.is_default <;> simp_all <;> omega

theorem defaultCount_map_setDefaultRow (pid h g : Nat) (db : List PaymentMethod) :
    defaultCount g (db.map (setDefaultRow pid h))
      = if g = h then db.countP (fun pm => pm.id == pid && pm.host_id == h)
        else defaultCount g db := by
  rw [defaultCount_eq_countP, List.countP_map]
  split
  · next hg =>
    subst hg
    apply List.countP_congr
    intro pm _
    simp only [Function.comp, setDefaultRow]
    by_cases h1 : pm.id = pid <;> by_cases h2 : pm.host_id = g <;>
      cases hd : pm.is_default <;> simp_all <;> omega
  · next hg =>
    rw [defaultCount_eq_countP]
    apply List.countP_congr
    intro pm _
    simp only [Function.comp, setDefaultRow]
    by_cases h1 : pm.id = pid <;> by_cases h2 : pm.host_id = h <;>
      by_cases h3 : pm.host_id = g <;> cases hd : pm.is_default <;>
      simp_all <;> omega

theorem countP_id_host_le_one (pid h : Nat) (db : List PaymentMethod)
    (hnd : NodupIds db) :
    db.countP (fun pm => pm.id == pid && pm.host_id == h) ≤ 1 := by
  have h1 : db.countP (fun pm => pm.id == pid && pm.host_id == h)
      ≤ db.countP (fun pm => pm.id == pid) :=
    List.countP_mono_left (fun x _ hx => by
      simp only [Bool.and_eq_true] at hx
      exact hx.1)
  have h2 : db.countP (fun pm => pm.id == pid)
      = List.count pid (db.map PaymentMethod.id) := by
    rw [List.count, List.countP_map]
    rfl
  have h3 := List.nodup_iff_count_le_one.mp hnd pid
  omega

theorem countP_pos_of_find? {p : PaymentMethod → Bool} {db : List PaymentMethod}
    {pm : PaymentMethod} (hf : db.find? p = some pm) : 1 ≤ db.countP p := by
  have hmem := List.mem_of_find?_eq_some hf
  have hp := List.find?_some hf
  calc 1 = List.countP p [pm] := by simp [List.countP_cons, hp]
    _ ≤ db.countP p := List.Sublist.countP_le _ (List.singleton_sublist.mpr hmem)

/-- The combined table invariant is preserved by every operation. -/
theorem applyPmOp_preserves (db : List PaymentMethod) (op : PmOp)
    (hnd : NodupIds db) (hinv : DefaultInv db) :
    NodupIds (applyPmOp db op) ∧ DefaultInv (applyPmOp db op) := by
  cases op with
  | addMpesa h r now =>
    simp only [applyPmOp, add_mpesa_payment_method]
    constructor
    · apply nodupIds_append_new db _ _ _ hnd rfl
      split
      · exact clearHostDefaults_ids h db
      · rfl
    · intro g
      rw [defaultCount_append]
      cases hr : r.is_default
      · have := hinv g
        simp only [Bool.false_eq_true, if_false, and_false]
        omega
      · rw [if_pos rfl]
        by_cases hg : g = h
        · subst hg
          rw [defaultCount_clear_self]
          simp
        · rw [defaultCount_clear_other _ _ _ hg,
            if_neg (fun hc => hg hc.1.symm)]
          have := hinv g
          omega
  | addCard h r s1 s2 now =>
    simp only [applyPmOp, add_card_payment_method]
    constructor
    · apply nodupIds_append_new db _ _ _ hnd rfl
      split
      · exact clearHostDefaults_ids h db
      · rfl
    · intro g
      rw [defaultCount_append]
      cases hr : r.is_default
      · have := hinv g
        simp only [Bool.false_eq_true, if_false, and_false]
        omega
      · rw [if_pos rfl]
        by_cases hg : g = h
        · subst hg
          rw [defaultCount_clear_self]
          simp
        · rw [defaultCount_clear_other _ _ _ hg,
            if_neg (fun hc => hg hc.1.symm)]
          have := hinv g
          omega
  | setDefault h pid =>
    simp only [applyPmOp, set_default_payment_method]
    cases hf : db.find? (fun pm => pm.id == pid && pm.host_id == h) with
    | none => exact ⟨hnd, hinv⟩
    | some pmF =>
      simp only
      rw [set_default_db_eq pid h db hnd]
      constructor
      · unfold NodupIds
        have : (db.map (setDefaultRow pid h)).map PaymentMethod.id
            = db.map PaymentMethod.id := by
          rw [List.map_map]
          apply List.map_congr_left
          intro pm _
          simp only [Function.comp, setDefaultRow]
          split
          · rfl
          · split <;> rfl
        rw [this]
        exact hnd
      · intro g
        rw [defaultCount_map_setDefaultRow]
        split
        · exact countP_id_host_le_one pid h db hnd
        · exact hinv g
  | delete h pid =>
    simp only [applyPmOp, delete_payment_method]
    cases hf : db.find? (fun pm => pm.id == pid && pm.host_id == h) with
    | none => exact ⟨hnd, hinv⟩
    | some pmF =>
      simp only
      constructor
      · unfold NodupIds at *
        exact hnd.sublist ((List.eraseP_sublist db).map PaymentMethod.id)
      · intro g
        have h1 : defaultCount g
            (List.eraseP (fun pm => pm.id == pid && pm.host_id == h) db)
            ≤ defaultCount g db := by
          rw [defaultCount_eq_countP, defaultCount_eq_countP]
          exact List.Sublist.countP_le _ (List.eraseP_sublist db)
        have h2 := hinv g
        omega

theorem runPmOps_inv (ops : List PmOp) :
    ∀ db : List PaymentMethod, NodupIds db → DefaultInv db →
    NodupIds (runPmOps db ops) ∧ DefaultInv (runPmOps db ops) := by
  induction ops with
  | nil => exact fun db hnd hinv => ⟨hnd, hinv⟩
  | cons op ops ih =>
    intro db hnd hinv
    rw [runPmOps, List.foldl_cons]
    have h := applyPmOp_preserves db op hnd hinv
    exact ih (applyPmOp db op) h.1 h.2

theorem mem_map_setDefaultRow_char (pid h : Nat) (db : List PaymentMethod)
    (pm' : PaymentMethod) (hmem : pm' ∈ db.map (setDefaultRow pid h))
    (hh : pm'.host_id = h) :
    pm'.is_default = true ↔ pm'.id = pid := by
  rcases List.mem_map.mp hmem with ⟨pm, hpm, rfl⟩
  unfold setDefaultRow at hh ⊢
  by_cases h1 : pm.id = pid ∧ pm.host_id = h <;>
    by_cases h2 : pm.host_id = h ∧ pm.is_default = true <;>
      simp_all

theorem find?_append_first {α : Type} (p : α → Bool) (a : α) :
    ∀ (l1 l2 : List α), (∀ b ∈ l1, ¬p b) → p a →
    (l1 ++ a :: l2).find? p = some a
  | [], l2, _, ha => by simp [ha]
  | b :: l1, l2, hl, ha => by
    have hb : ¬p b := hl b (List.mem_cons_self b l1)
    simp only [List.cons_append]
    rw [List.find?_cons_of_neg _ hb]
    exact find?_append_first p a l1 l2 (fun x hx => hl x (List.mem_cons_of_mem b hx)) ha

/-! ## Claims C2, C8, C10 -/

/-- C2: starting from an empty table, any sequence of payment-method
operations leaves every host with at most one default payment method; and a
successful `set_default` on method B makes B the host's unique default — every
other method of the host (in particular the former default A) is non-default
afterwards, and exactly one default exists (never both, never neither). -/
theorem c2_at_most_one_default :
    (∀ (ops : List PmOp) (hostId : Nat),
        defaultCount hostId (runPmOps [] ops) ≤ 1)
    ∧ (∀ (db : List PaymentMethod) (hostId pmB : Nat) (db' : List PaymentMethod),
        NodupIds db →
        set_default_payment_method pmB hostId db = (.ok (), db') →
        defaultCount hostId db' = 1
        ∧ ∀ pm' ∈ db', pm'.host_id = hostId →
            (pm'.is_default = true ↔ pm'.id = pmB)) := by
  constructor
  · intro ops hostId
    have hempty : NodupIds ([] : List PaymentMethod) ∧ DefaultInv [] := by
      constructor
      · simp [NodupIds]
      · intro g
        simp [defaultCount]
    exact (runPmOps_inv ops [] hempty.1 hempty.2).2 hostId
  · intro db hostId pmB db' hnd heq
    unfold set_default_payment_method at heq
    cases hf : db.find? (fun pm => pm.id == pmB && pm.host_id == hostId) with
    | none =>
      rw [hf] at heq
      simp at heq
    | some pmF =>
      rw [hf] at heq
      simp only [Prod.mk.injEq] at heq
      have hdb' : db' = db.map (setDefaultRow pmB hostId) := by
        rw [← heq.2, set_default_db_eq pmB hostId db hnd]
      constructor
      · rw [hdb', defaultCount_map_setDefaultRow, if_pos rfl]
        have hle := countP_id_host_le_one pmB hostId db hnd
        have hge := countP_pos_of_find? hf
        omega
      · intro pm' hmem hh
        rw [hdb'] at hmem
        exact mem_map_setDefaultRow_char pmB hostId db pm' hmem hh

theorem c2_at_most_one_default_witness :
    defaultCount 1
        [⟨1, 1, .MPESA, some "254700000001", none, none, none, none, none, none,
            false, 0⟩,
         ⟨2, 1, .MPESA, some "254700000002", none, none, none, none, none, none,
            true, 1⟩] = 1
    ∧ ∀ pm' ∈
        [(⟨1, 1, .MPESA, some "254700000001", none, none, none, none, none, none,
            false, 0⟩ : PaymentMethod),
         ⟨2, 1, .MPESA, some "254700000002", none, none, none, none, none, none,
            true, 1⟩], pm'.host_id = 1 →
        (pm'.is_default = true ↔ pm'.id = 2) :=
  c2_at_most_one_default.2
    [⟨1, 1, .MPESA, some "254700000001", none, none, none, none, none, none,
        true, 0⟩,
     ⟨2, 1, .MPESA, some "254700000002", none, none, none, none, none, none,
        false, 1⟩] 1 2
    [⟨1, 1, .MPESA, some "254700000001", none, none, none, none, none, none,
        false, 0⟩,
     ⟨2, 1, .MPESA, some "254700000002", none, none, none, none, none, none,
        true, 1⟩] (by unfold NodupIds; decide) (by rfl)

/-- C8: deleting a payment method whose id is absent or not owned by the
caller fails with the 404 `NotFound` and leaves the table unchanged; deleting
the host's current default leaves the host with zero default payment methods —
no other method is promoted. -/
theorem c8_delete_no_promotion :
    (∀ (pid h : Nat) (db : List PaymentMethod),
        db.find? (fun pm => pm.id == pid && pm.host_id == h) = none →
        delete_payment_method pid h db
          = (.error ⟨404, "Payment method not found"⟩, db))
    ∧ (∀ (pid h : Nat) (db : List PaymentMethod) (pmF : PaymentMethod),
        NodupIds db → DefaultInv db →
        db.find? (fun pm => pm.id == pid && pm.host_id == h) = some pmF →
        pmF.is_default = true →
        (delete_payment_method pid h db).1 = .ok ()
        ∧ defaultCount h (delete_payment_method pid h db).2 = 0) := by
  constructor
  · intro pid h db hf
    unfold delete_payment_method
    rw [hf]
  · intro pid h db pmF hnd hinv hf hdef
    have hmem := List.mem_of_find?_eq_some hf
    have hq := List.find?_some hf
    obtain ⟨a, l1, l2, hl1, hpa, hdb, herase⟩ :=
      List.exists_of_eraseP (p := fun pm => pm.id == pid && pm.host_id == h) hmem hq
    have hfind2 : db.find? (fun pm => pm.id == pid && pm.host_id == h) = some a := by
      rw [hdb]
      exact find?_append_first _ a l1 l2 hl1 hpa
    have haF : a = pmF := by
      rw [hfind2] at hf
      exact Option.some.inj hf
    subst haF
    simp only [Bool.and_eq_true, beq_iff_eq] at hpa
    constructor
    · unfold delete_payment_method
      rw [hf]
    · unfold delete_payment_method
      rw [hf]
      simp only
      rw [herase]
      have hsplit : defaultCount h db
          = defaultCount h l1 + defaultCount h l2 + 1 := by
        rw [hdb, defaultCount_eq_countP, List.countP_append, List.countP_cons,
          defaultCount_eq_countP, defaultCount_eq_countP]
        rw [if_pos (by simp [hpa.2, hdef])]
        omega
      have happ : defaultCount h (l1 ++ l2)
          = defaultCount h l1 + defaultCount h l2 := by
        rw [defaultCount_eq_countP, List.countP_append,
          defaultCount_eq_countP, defaultCount_eq_countP]
      have := hinv h
      omega

theorem c8_delete_no_promotion_witness :
    delete_payment_method 9 1
        [⟨1, 1, .MPESA, some "254700000001", none, none, none, none, none, none,
            true, 0⟩]
      = (.error ⟨404, "Payment method not found"⟩,
         [⟨1, 1, .MPESA, some "254700000001", none, none, none, none, none, none,
            true, 0⟩])
    ∧ (delete_payment_method 1 1
        [⟨1, 1, .MPESA, some "254700000001", none, none, none, none, none, none,
            true, 0⟩]).1 = .ok ()
    ∧ defaultCount 1 (delete_payment_method 1 1
        [⟨1, 1, .MPESA, some "254700000001", none, none, none, none, none, none,
            true, 0⟩]).2 = 0 := by
  refine ⟨c8_delete_no_promotion.1 9 1 _ (by rfl), ?_⟩
  exact c8_delete_no_promotion.2 1 1
    [⟨1, 1, .MPESA, some "254700000001", none, none, none, none, none, none,
        true, 0⟩]
    ⟨1, 1, .MPESA, some "254700000001", none, none, none, none, none, none,
        true, 0⟩ (by unfold NodupIds; decide)
    (fun g => by
      unfold defaultCount
      exact Nat.le_trans (List.length_filter_le _ _) (by simp))
    (by rfl) (by rfl)

/-- C10: for every card request accepted by the validator, the created row's
(and hence the returned response's) `card_last_four` is exactly the last four
characters of the cleaned (space/dash-stripped) card number, and the stored
row is that same created row; and the payment-method response schema is
independent of the card-number hash and the CVC hash — those secrets have no
response field. -/
theorem c10_card_last_four_no_secrets :
    (∀ (raw r : CardPaymentMethodAddRequest) (ty tm hostId s1 s2 now : Nat)
        (db : List PaymentMethod),
        validate_card_data raw ty tm = some r →
        ((add_card_payment_method hostId r s1 s2 now db).1.card_last_four
            = some (pyLastFour (stripSpaceDash raw.card_number))
         ∧ (add_card_payment_method hostId r s1 s2 now db).2
            = (if r.is_default = true then clearHostDefaults hostId db else db)
              ++ [(add_card_payment_method hostId r s1 s2 now db).1]))
    ∧ (∀ (pm : PaymentMethod) (cnh cvh : Option BcryptHash),
        paymentMethodToResponse { pm with card_number_hash := cnh, cvc_hash := cvh }
          = paymentMethodToResponse pm) := by
  constructor
  · intro raw r ty tm hostId s1 s2 now db hval
    have hcn : r.card_number = stripSpaceDash raw.card_number := by
      unfold validate_card_data at hval
      simp only [] at hval
      repeat' split at hval
      any_goals exact Option.noConfusion hval
      have hr := Option.some.inj hval
      rw [← hr]
    constructor
    · simp [add_card_payment_method, hcn]
    · rfl
  · intro pm cnh cvh
    rfl

theorem c10_card_last_four_no_secrets_witness :
    (add_card_payment_method 1
        ⟨"4111111111111111", "123", 12, 2030, .visa, true⟩ 5 6 0 []).1.card_last_four
      = some (pyLastFour (stripSpaceDash "4111 1111 1111 1111"))
    ∧ (add_card_payment_method 1
        ⟨"4111111111111111", "123", 12, 2030, .visa, true⟩ 5 6 0 []).2
      = (if (⟨"4111111111111111", "123", 12, 2030, .visa, true⟩ :
            CardPaymentMethodAddRequest).is_default = true
          then clearHostDefaults 1 [] else [])
        ++ [(add_card_payment_method 1
            ⟨"4111111111111111", "123", 12, 2030, .visa, true⟩ 5 6 0 []).1] :=
  c10_card_last_four_no_secrets.1
    ⟨"4111 1111 1111 1111", "123", 12, 2030, .visa, true⟩
    ⟨"4111111111111111", "123", 12, 2030, .visa, true⟩
    2025 10 1 5 6 0 [] (by rfl)

/-! ## Lemmas: JSON round-trip -/

theorem skipWs_not_ws {c : Char} (h : isJsonWs c = false) (l : List Char) :
    skipWs (c :: l) = c :: l := by
  simp [skipWs, h]

theorem length_le_flatMap_escCharJ (s : List Char) :
    s.length ≤ (s.flatMap escCharJ).length := by
  induction s with
  | nil => simp
  | cons c s ih =>
    simp only [List.flatMap_cons, List.length_append, List.length_cons]
    have : 1 ≤ (escCharJ c).length := by
      unfold escCharJ
      split <;> simp
    omega

theorem parseJStringBodyF_encode (s : List Char) :
    ∀ (rest : List Char) (fuel : Nat), s.length + 1 ≤ fuel →
    parseJStringBodyF fuel (s.flatMap escCharJ ++ '"' :: rest)
      = some (s, rest) := by
  induction s with
  | nil =>
    intro rest fuel hfuel
    match fuel, hfuel with
    | f + 1, _ =>
      simp only [List.flatMap_nil, List.nil_append]
      rfl
  | cons c s ih =>
    intro rest fuel hfuel
    match fuel, hfuel with
    | f + 1, hfuel =>
      have hf : s.length + 1 ≤ f := by
        simp only [List.length_cons] at hfuel
        omega
      by_cases hc : c = '"' ∨ c = '\\'
      · have hstep : ((c :: s).flatMap escCharJ ++ '"' :: rest)
            = '\\' :: c :: (s.flatMap escCharJ ++ '"' :: rest) := by
          simp only [List.flatMap_cons, escCharJ, if_pos hc, List.cons_append,
            List.nil_append, List.append_assoc]
        rw [hstep]
        show (parseJStringBodyF f (s.flatMap escCharJ ++ '"' :: rest)).map
            (fun p => (c :: p.1, p.2)) = some (c :: s, rest)
        rw [ih rest f hf]
        rfl
      · push_neg at hc
        have hstep : ((c :: s).flatMap escCharJ ++ '"' :: rest)
            = c :: (s.flatMap escCharJ ++ '"' :: rest) := by
          simp only [List.flatMap_cons, escCharJ,
            if_neg (not_or.mpr ⟨hc.1, hc.2⟩), List.cons_append,
            List.nil_append, List.append_assoc]
        rw [hstep]
        simp only [parseJStringBodyF]
        rw [if_neg hc.1, if_neg hc.2, ih rest f hf]
        rfl

theorem parseJStringBody_encode (s : List Char) (rest : List Char) :
    parseJStringBody (s.flatMap escCharJ ++ '"' :: rest) = some (s, rest) := by
  have hlen := length_le_flatMap_escCharJ s
  apply parseJStringBodyF_encode
  simp only [List.length_append, List.length_cons]
  omega

theorem joinItems_head (s : List Char) (ss : List (List Char)) :
    ∃ t, joinItems (s :: ss) = '"' :: t := by
  cases ss
  · exact ⟨_, rfl⟩
  · exact ⟨_, rfl⟩

theorem joinItems_length (ss : List (List Char)) :
    ss.length ≤ (joinItems ss).length := by
  match ss with
  | [] => simp [joinItems]
  | [s] => simp [joinItems, encodeJStringL]
  | s :: s2 :: ss' =>
    have ih := joinItems_length (s2 :: ss')
    simp only [joinItems, encodeJStringL, List.length_append, List.length_cons]
    simp only [List.length_cons] at ih
    omega

theorem parseItems_joinItems :
    ∀ (ss : List (List Char)) (rest : List Char) (fuel : Nat), ss ≠ [] →
      ss.length ≤ fuel →
    parseItems fuel (joinItems ss ++ ']' :: rest) = some (ss, rest)
  | [], _, _, h, _ => absurd rfl h
  | [s], rest, 0, _, hlen => by simp at hlen
  | [s], rest, fuel + 1, _, _ => by
    have hstep : joinItems [s] ++ ']' :: rest
        = '"' :: (s.flatMap escCharJ ++ '"' :: (']' :: rest)) := by
      simp only [joinItems, encodeJStringL, List.cons_append,
        List.append_assoc, List.nil_append]
    rw [hstep]
    simp only [parseItems]
    rw [parseJStringBody_encode s (']' :: rest)]
    rfl
  | s :: s2 :: ss', rest, 0, _, hlen => by simp at hlen
  | s :: s2 :: ss', rest, fuel + 1, _, hlen => by
    obtain ⟨t, ht⟩ := joinItems_head s2 ss'
    have ih := parseItems_joinItems (s2 :: ss') rest fuel (by simp)
      (by simp only [List.length_cons] at hlen ⊢; omega)
    rw [ht, List.cons_append] at ih
    have hstep : joinItems (s :: s2 :: ss') ++ ']' :: rest
        = '"' :: (s.flatMap escCharJ ++ '"' ::
            (',' :: ' ' :: ('"' :: (t ++ ']' :: rest)))) := by
      simp only [joinItems, encodeJStringL, ht, List.cons_append,
        List.append_assoc, List.nil_append]
    rw [hstep]
    simp only [parseItems]
    rw [parseJStringBody_encode s
      (',' :: ' ' :: ('"' :: (t ++ ']' :: rest)))]
    show (match parseItems fuel ('"' :: (t ++ ']' :: rest)) with
      | none => none
      | some (ss, rest3) => some (s :: ss, rest3)) = some (s :: s2 :: ss', rest)
    rw [ih]

theorem mk_toList (s : String) : String.mk s.toList = s := rfl

theorem jsonDumps_ne_empty (l : List String) : jsonDumps l ≠ "" := by
  intro h
  have hd := congrArg String.data h
  simp [jsonDumps] at hd

/-- Round-trip of the modelled `json` codec on every list of strings. -/
theorem jsonLoadsList_jsonDumps (l : List String) :
    jsonLoadsList (jsonDumps l) = some l := by
  cases l with
  | nil => rfl
  | cons s l' =>
    obtain ⟨t, ht⟩ := joinItems_head s.toList (l'.map String.toList)
    have hlen := joinItems_length ((s :: l').map String.toList)
    have hmk : ((s :: l').map String.toList).map String.mk = s :: l' :=
      calc ((s :: l').map String.toList).map String.mk
          = (s :: l').map (String.mk ∘ String.toList) := by rw [List.map_map]
        _ = (s :: l').map (fun x => x) :=
            List.map_congr_left (fun x _ => mk_toList x)
        _ = s :: l' := List.map_id' _
    show (match skipWs (joinItems ((s :: l').map String.toList) ++ [']']) with
        | [] => none
        | [']'] => some []
        | l2 =>
          match parseItems (l2.length + 1) l2 with
          | some (ss, rest3) =>
              if skipWs rest3 = [] then some (ss.map String.mk) else none
          | none => none) = some (s :: l')
    have hitems : (s :: l').map String.toList
        = s.toList :: l'.map String.toList := rfl
    rw [hitems, ht, List.cons_append, skipWs_not_ws (by decide)]
    show (match parseItems (('"' :: (t ++ [']'])).length + 1) ('"' :: (t ++ [']'])) with
      | some (ss, rest3) =>
          if skipWs rest3 = [] then some (ss.map String.mk) else none
      | none => none) = some (s :: l')
    rw [← List.cons_append, ← ht, ← hitems]
    have hfuel : ((s :: l').map String.toList).length
        ≤ (joinItems ((s :: l').map String.toList) ++ [']']).length + 1 := by
      simp only [List.length_append, List.length_cons, List.length_map] at *
      omega
    have hparse := parseItems_joinItems ((s :: l').map String.toList)
      [] ((joinItems ((s :: l').map String.toList) ++ [']']).length + 1)
      (by simp) hfuel
    rw [hparse]
    show (if skipWs ([] : List Char) = [] then
        some (((s :: l').map String.toList).map String.mk) else none)
      = some (s :: l')
    rw [if_pos (show skipWs ([] : List Char) = [] from rfl), hmk]

/-! ## Lemmas: car table -/

theorem findCar_updateCarById (cid : Nat) (f : Car → Car)
    (hid : ∀ c, (f c).id = c.id) :
    ∀ (db : List Car) (car : Car), findCar cid db = some car →
    findCar cid (updateCarById cid f db) = some (f car)
  | [], car, h => by simp [findCar] at h
  | c :: rest, car, h => by
    unfold findCar at h ⊢
    by_cases hc : c.id = cid
    · rw [List.find?_cons_of_pos _ (by simpa using hc)] at h
      unfold updateCarById
      rw [if_pos hc]
      rw [List.find?_cons_of_pos _ (by simp [hid, hc])]
      rw [Option.some.inj h]
    · rw [List.find?_cons_of_neg _ (by simpa using hc)] at h
      unfold updateCarById
      rw [if_neg hc]
      rw [List.find?_cons_of_neg _ (by simpa using hc)]
      exact findCar_updateCarById cid f hid rest car h

/-! ## Claims C5, C6, C9 -/

/-- C5: a successful Location-stage call on an existing owned car updates the
fetched row with `locationApply`; that update sets `is_complete` to `true`
unconditionally (whatever the row's prior state), stores the place name and
clears both coordinates when a (truthy) name is supplied, stores the
coordinates and clears the name otherwise, and — for any request the validator
accepts — exactly one of the two representations was supplied: a truthy name
with no coordinates, or both coordinates with no truthy name. -/
theorem c5_location_stage (car_id hostId : Nat) (request : CarLocationRequest)
    (db : List Car) (car : Car)
    (hvalid : request.location_provided = true)
    (hfind : findCar car_id db = some car)
    (hown : car.host_id = hostId) :
    update_car_location car_id hostId request db
      = (.ok (), updateCarById car_id (locationApply request) db)
    ∧ (∀ c : Car, (locationApply request c).is_complete = true)
    ∧ (truthyStr request.location_name = true →
        ∀ c : Car, (locationApply request c).location_name = request.location_name
          ∧ (locationApply request c).latitude = none
          ∧ (locationApply request c).longitude = none)
    ∧ (truthyStr request.location_name = false →
        ∀ c : Car, (locationApply request c).location_name = none
          ∧ (locationApply request c).latitude = request.latitude
          ∧ (locationApply request c).longitude = request.longitude)
    ∧ ((truthyStr request.location_name = true
          ∧ request.latitude = none ∧ request.longitude = none)
        ∨ (truthyStr request.location_name = false
          ∧ request.latitude.isSome = true ∧ request.longitude.isSome = true)) := by
  refine ⟨?_, ?_, ?_, ?_, ?_⟩
  · unfold update_car_location
    rw [hfind]
    show (if car.host_id ≠ hostId then
        (Except.error (HttpErr.mk 403 "You don't have permission to update this car"), db)
      else (Except.ok (), updateCarById car_id (locationApply request) db))
      = (Except.ok (), updateCarById car_id (locationApply request) db)
    rw [if_neg (fun hc => hc hown)]
  · intro c
    unfold locationApply
    cases h : truthyStr request.location_name <;> rfl
  · intro htr c
    refine ⟨?_, ?_, ?_⟩ <;> (unfold locationApply; rw [htr]; all_goals rfl)
  · intro htr c
    refine ⟨?_, ?_, ?_⟩ <;> (unfold locationApply; rw [htr]; all_goals rfl)
  · unfold CarLocationRequest.location_provided at hvalid
    cases htr : truthyStr request.location_name with
    | true =>
      left
      refine ⟨rfl, ?_, ?_⟩ <;>
        · rw [htr] at hvalid
          simp only [Bool.not_true, Bool.false_and, Bool.not_false,
            Bool.true_and, Bool.true_and] at hvalid
          cases hla : request.latitude <;> cases hlo : request.longitude <;>
            simp_all
    | false =>
      right
      refine ⟨rfl, ?_, ?_⟩ <;>
        · rw [htr] at hvalid
          cases hla : request.latitude <;> cases hlo : request.longitude <;>
            simp_all

theorem c5_location_stage_witness :
    update_car_location 1 1 { location_name := some "Downtown Parking" }
        [{ id := 1, host_id := 1 }]
      = (.ok (), updateCarById 1
          (locationApply { location_name := some "Downtown Parking" })
          [{ id := 1, host_id := 1 }])
    ∧ (locationApply { location_name := some "Downtown Parking" }
        { id := 1, host_id := 1 }).is_complete = true := by
  have h := c5_location_stage 1 1 { location_name := some "Downtown Parking" }
    [{ id := 1, host_id := 1 }] { id := 1, host_id := 1 }
    (by decide) (by rfl) rfl
  exact ⟨h.1, h.2.1 { id := 1, host_id := 1 }⟩

/-- C6: each stage 2-4 handler rejects an unknown car id with the 404
`NotFound` and a car owned by a different host with the 403 `Forbidden`, and
in both cases returns the table exactly as it was — the checks precede every
field write. -/
theorem c6_ownership_checks_no_mutation :
    (∀ (car_id hostId : Nat) (request : CarTechnicalSpecsRequest) (db : List Car),
        findCar car_id db = none →
        update_car_specs car_id hostId request db
          = (.error ⟨404, "Car not found"⟩, db))
    ∧ (∀ (car_id hostId : Nat) (request : CarTechnicalSpecsRequest)
        (db : List Car) (car : Car),
        findCar car_id db = some car → car.host_id ≠ hostId →
        update_car_specs car_id hostId request db
          = (.error ⟨403, "You don't have permission to update this car"⟩, db))
    ∧ (∀ (car_id hostId : Nat) (request : CarPricingRulesRequest) (db : List Car),
        findCar car_id db = none →
        update_car_pricing car_id hostId request db
          = (.error ⟨404, "Car not found"⟩, db))
    ∧ (∀ (car_id hostId : Nat) (request : CarPricingRulesRequest)
        (db : List Car) (car : Car),
        findCar car_id db = some car → car.host_id ≠ hostId →
        update_car_pricing car_id hostId request db
          = (.error ⟨403, "You don't have permission to update this car"⟩, db))
    ∧ (∀ (car_id hostId : Nat) (request : CarLocationRequest) (db : List Car),
        findCar car_id db = none →
        update_car_location car_id hostId request db
          = (.error ⟨404, "Car not found"⟩, db))
    ∧ (∀ (car_id hostId : Nat) (request : CarLocationRequest)
        (db : List Car) (car : Car),
        findCar car_id db = some car → car.host_id ≠ hostId →
        update_car_location car_id hostId request db
          = (.error ⟨403, "You don't have permission to update this car"⟩, db)) := by
  refine ⟨?_, ?_, ?_, ?_, ?_, ?_⟩
  · intro cid h r db hf
    unfold update_car_specs
    rw [hf]
  · intro cid h r db car hf hown
    unfold update_car_specs
    rw [hf]
    show (if car.host_id ≠ h then
        (Except.error (HttpErr.mk 403 "You don't have permission to update this car"), db)
      else (Except.ok (), updateCarById cid (specsApply r) db))
      = (Except.error (HttpErr.mk 403 "You don't have permission to update this car"), db)
    rw [if_pos hown]
  · intro cid h r db hf
    unfold update_car_pricing
    rw [hf]
  · intro cid h r db car hf hown
    unfold update_car_pricing
    rw [hf]
    show (if car.host_id ≠ h then
        (Except.error (HttpErr.mk 403 "You don't have permission to update this car"), db)
      else (Except.ok (), updateCarById cid (pricingApply r) db))
      = (Except.error (HttpErr.mk 403 "You don't have permission to update this car"), db)
    rw [if_pos hown]
  · intro cid h r db hf
    unfold update_car_location
    rw [hf]
  · intro cid h r db car hf hown
    unfold update_car_location
    rw [hf]
    show (if car.host_id ≠ h then
        (Except.error (HttpErr.mk 403 "You don't have permission to update this car"), db)
      else (Except.ok (), updateCarById cid (locationApply r) db))
      = (Except.error (HttpErr.mk 403 "You don't have permission to update this car"), db)
    rw [if_pos hown]

theorem c6_ownership_checks_no_mutation_witness :
    update_car_specs 9 1 ⟨5, "Petrol", "Manual", "Red", 10000, []⟩
        [{ id := 1, host_id := 1 }]
      = (.error ⟨404, "Car not found"⟩, [{ id := 1, host_id := 1 }])
    ∧ update_car_location 1 2 { location_name := some "X" }
        [{ id := 1, host_id := 1 }]
      = (.error ⟨403, "You don't have permission to update this car"⟩,
         [{ id := 1, host_id := 1 }]) :=
  ⟨c6_ownership_checks_no_mutation.1 9 1 _ _ (by rfl),
   c6_ownership_checks_no_mutation.2.2.2.2.2 1 2 _ _ { id := 1, host_id := 1 }
     (by rfl) (by decide)⟩

/-- C9 counterexample: submitting the empty features list to the Specs stage
stores `None` (the empty list is falsy, so `json.dumps` is skipped), and
reading the car back yields `features = None`, not the submitted empty
list. -/
theorem c9_empty_features_counterexample :
    (update_car_specs 1 1 ⟨5, "Petrol", "Manual", "Red", 10000, []⟩
        [{ id := 1, host_id := 1 }]).1 = .ok ()
    ∧ (get_car 1 (update_car_specs 1 1 ⟨5, "Petrol", "Manual", "Red", 10000, []⟩
        [{ id := 1, host_id := 1 }]).2).map CarResponse.features
      = .ok none
    ∧ (none : Option (List String)) ≠ some [] :=
  ⟨rfl, rfl, by decide⟩

/-- C9 (amended): a non-empty features list accepted by the Specs stage
(up to 12 entries) round-trips exactly — the stored `json.dumps` text decodes
back to the submitted list when the car is read; the empty list is stored as
`None` and reads back as `None`. -/
theorem c9_features_roundtrip (car_id hostId : Nat)
    (request : CarTechnicalSpecsRequest) (db : List Car) (car : Car)
    (hcap : request.features.length ≤ 12)
    (hfind : findCar car_id db = some car)
    (hown : car.host_id = hostId) :
    (request.features ≠ [] →
      get_car car_id (update_car_specs car_id hostId request db).2
        = .ok (_car_to_response (specsApply request car))
      ∧ (_car_to_response (specsApply request car)).features
        = some request.features)
    ∧ (request.features = [] →
      (_car_to_response (specsApply request car)).features = none) := by
  have hupd : (update_car_specs car_id hostId request db).2
      = updateCarById car_id (specsApply request) db := by
    unfold update_car_specs
    rw [hfind]
    show (if car.host_id ≠ hostId then
        (Except.error (HttpErr.mk 403 "You don't have permission to update this car"), db)
      else (Except.ok (), updateCarById car_id (specsApply request) db)).2
      = updateCarById car_id (specsApply request) db
    rw [if_neg (fun hc => hc hown)]
  constructor
  · intro hne
    have hfind' := findCar_updateCarById car_id (specsApply request)
      (fun c => rfl) db car hfind
    constructor
    · rw [hupd]
      unfold get_car
      rw [hfind']
    · unfold _car_to_response specsApply
      simp only [if_pos hne]
      rw [if_neg (jsonDumps_ne_empty request.features)]
      exact jsonLoadsList_jsonDumps request.features
  · intro hempty
    unfold _car_to_response specsApply
    rw [if_neg (by simp [hempty])]

theorem c9_features_roundtrip_witness :
    (get_car 1 (update_car_specs 1 1
        ⟨5, "Petrol", "Manual", "Red", 10000, ["GPS", "Air Conditioning"]⟩
        [{ id := 1, host_id := 1 }]).2
      = .ok (_car_to_response (specsApply
          ⟨5, "Petrol", "Manual", "Red", 10000, ["GPS", "Air Conditioning"]⟩
          { id := 1, host_id := 1 }))
    ∧ (_car_to_response (specsApply
        ⟨5, "Petrol", "Manual", "Red", 10000, ["GPS", "Air Conditioning"]⟩
        { id := 1, host_id := 1 })).features
      = some ["GPS", "Air Conditioning"]) :=
  (c9_features_roundtrip 1 1
      ⟨5, "Petrol", "Manual", "Red", 10000, ["GPS", "Air Conditioning"]⟩
      [{ id := 1, host_id := 1 }]
      { id := 1, host_id := 1 } (by decide) (by rfl) rfl).1 (by decide)

/-! ## Claim C7 -/

/-- C7 counterexample: the claim says `verify` never raises and returns false
on a malformed hash value.  But `verify_password` passes the stored value
straight to `bcrypt.checkpw` with no exception handling, and `checkpw` raises
`ValueError("Invalid salt")` on a value that is not a well-formed bcrypt
hash — the call raises instead of returning `false`. -/
theorem c7_malformed_hash_counterexample :
    verify_password "password" (.malformed "notahash") = .error "Invalid salt"
    ∧ verify_password "password" (.malformed "notahash") ≠ .ok false :=
  ⟨rfl, fun h => Except.noConfusion h⟩

/-- C7 (amended): `verify(s, h)` returns `true` when `h` was produced by
`hash(s)` (any salt), returns `false` on a mismatch against a well-formed
hash, but on a malformed hash value it raises `ValueError("Invalid salt")`
rather than returning `false`. -/
theorem c7_verify_behavior :
    (∀ (s : String) (salt : Nat),
        verify_password s (get_password_hash s salt) = .ok true)
    ∧ (∀ (s t : String) (salt : Nat), s ≠ t →
        verify_password s (get_password_hash t salt) = .ok false)
    ∧ (∀ (s raw : String),
        verify_password s (.malformed raw) = .error "Invalid salt") := by
  refine ⟨?_, ?_, ?_⟩
  · intro s salt
    simp [verify_password, get_password_hash, bcrypt_hashpw, bcrypt_checkpw]
  · intro s t salt hne
    simp [verify_password, get_password_hash, bcrypt_hashpw, bcrypt_checkpw, hne]
  · intro s raw
    rfl

theorem c7_verify_behavior_witness :
    verify_password "hunter2" (get_password_hash "hunter2" 42) = .ok true
    ∧ verify_password "hunter3" (get_password_hash "hunter2" 42) = .ok false :=
  ⟨c7_verify_behavior.1 "hunter2" 42,
   c7_verify_behavior.2.1 "hunter3" "hunter2" 42 (by decide)⟩

end OpaBackend
